import Mathlib

/-!
Verification of the weather-data aggregation flow of the mcp-servers
repository (MCP weather tool: geocoder adapter, forecast adapter,
weather-code translator, response composer, tool handler).

The embedding models the TypeScript sources:
  - the MCP server route (getWeatherForCity, wmoWeatherCodeToText,
    fetchJsonOrThrow, get_weather tool handler), and
  - the parallel client composer in weather-mcp/app/page.tsx.

Numbers carried by upstream JSON (temperatures, wind speeds, coordinates,
precipitation probabilities) are modelled as integers: the code performs
no arithmetic on them beyond pass-through, so the carrier type does not
matter for any property proved here.  Network effects are modelled by an
environment of response oracles plus an explicit trace of outbound calls.
-/

set_option maxHeartbeats 1000000

/-- Outcome of one fetch of a JSON endpoint, as observed by the calling
code: a parsed body, a non-success HTTP status with response text, or a
rejected promise (network exception) carrying an error message. -/
inductive FetchOutcome (α : Type) where
  | success (value : α)
  | httpError (status : Nat) (body : String)
  | networkError (message : String)

/-- One entry of the geocoding response results array
(OpenMeteoGeocodingResponse.results elements in the source). -/
structure GeoResult where
  name : String
  latitude : Int
  longitude : Int
  country : Option String := none
  admin1 : Option String := none
  timezone : Option String := none
  deriving DecidableEq, Repr

/-- Geocoding response: the results array may be absent. -/
structure OpenMeteoGeocodingResponse where
  results : Option (List GeoResult) := none
  deriving DecidableEq, Repr

/-- The current block of the forecast response. -/
structure CurrentBlock where
  time : String
  temperature_2m : Option Int := none
  weather_code : Option Int := none
  wind_speed_10m : Option Int := none
  deriving DecidableEq, Repr

/-- The daily block of the forecast response (arrays indexed by day). -/
structure DailySeries where
  time : List String := []
  temperature_2m_max : Option (List Int) := none
  temperature_2m_min : Option (List Int) := none
  precipitation_probability_max : Option (List Int) := none
  deriving DecidableEq, Repr

/-- Unit metadata block of the forecast response. -/
structure CurrentUnits where
  temperature_2m : Option String := none
  wind_speed_10m : Option String := none
  deriving DecidableEq, Repr

/-- Forecast response.  The source type declares timezone as required but
reads it with a nullish-coalescing fallback, so it is modelled as
optional; latitude and longitude are declared but never read. -/
structure OpenMeteoForecastResponse where
  latitude : Int := 0
  longitude : Int := 0
  timezone : Option String := none
  current : Option CurrentBlock := none
  daily : Option DailySeries := none
  current_units : Option CurrentUnits := none
  deriving DecidableEq, Repr

/-- Translation of the wmoWeatherCodeToText switch statement.  The
argument is optional exactly as in the source (code: number or
undefined); each case group of the switch becomes one branch. -/
def wmoWeatherCodeToText (code : Option Int) : String :=
  match code with
  | none => "Unknown conditions"
  | some c =>
    if c = 0 then "Clear sky"
    else if c = 1 ∨ c = 2 ∨ c = 3 then "Partly cloudy"
    else if c = 45 ∨ c = 48 then "Fog"
    else if c = 51 ∨ c = 53 ∨ c = 55 then "Drizzle"
    else if c = 56 ∨ c = 57 then "Freezing drizzle"
    else if c = 61 ∨ c = 63 ∨ c = 65 then "Rain"
    else if c = 66 ∨ c = 67 then "Freezing rain"
    else if c = 71 ∨ c = 73 ∨ c = 75 then "Snow"
    else if c = 77 then "Snow grains"
    else if c = 80 ∨ c = 81 ∨ c = 82 then "Rain showers"
    else if c = 85 ∨ c = 86 then "Snow showers"
    else if c = 95 then "Thunderstorm"
    else if c = 96 ∨ c = 99 then "Thunderstorm with hail"
    else "Unknown conditions"

/-- Restatement of the enumeration table in the words of the
specification (section 4.3 and the claim text), written independently of
the source: single codes by equality, the ranges 1 to 3 and 80 to 82 as
interval conditions, everything else unknown.  Used only to compare the
source translator against the documented table. -/
def wmoSpecText (n : Int) : String :=
  if n = 0 then "Clear sky"
  else if 1 ≤ n ∧ n ≤ 3 then "Partly cloudy"
  else if n = 45 ∨ n = 48 then "Fog"
  else if n = 51 ∨ n = 53 ∨ n = 55 then "Drizzle"
  else if n = 56 ∨ n = 57 then "Freezing drizzle"
  else if n = 61 ∨ n = 63 ∨ n = 65 then "Rain"
  else if n = 66 ∨ n = 67 then "Freezing rain"
  else if n = 71 ∨ n = 73 ∨ n = 75 then "Snow"
  else if n = 77 then "Snow grains"
  else if 80 ≤ n ∧ n ≤ 82 then "Rain showers"
  else if n = 85 ∨ n = 86 then "Snow showers"
  else if n = 95 then "Thunderstorm"
  else if n = 96 ∨ n = 99 then "Thunderstorm with hail"
  else "Unknown conditions"

/-- The fixed set of strings the translator can produce (the fourteen
right-hand sides of the switch, including the default). -/
def translationTable : List String :=
  ["Clear sky", "Partly cloudy", "Fog", "Drizzle", "Freezing drizzle",
   "Rain", "Freezing rain", "Snow", "Snow grains", "Rain showers",
   "Snow showers", "Thunderstorm", "Thunderstorm with hail",
   "Unknown conditions"]

theorem wmo_unknown_of_out_of_range (n : Int) (h : n < 0 ∨ 99 < n) :
    wmoWeatherCodeToText (some n) = "Unknown conditions" := by
  have h0 : ¬(n = 0) := by omega
  have h1 : ¬(n = 1 ∨ n = 2 ∨ n = 3) := by omega
  have h2 : ¬(n = 45 ∨ n = 48) := by omega
  have h3 : ¬(n = 51 ∨ n = 53 ∨ n = 55) := by omega
  have h4 : ¬(n = 56 ∨ n = 57) := by omega
  have h5 : ¬(n = 61 ∨ n = 63 ∨ n = 65) := by omega
  have h6 : ¬(n = 66 ∨ n = 67) := by omega
  have h7 : ¬(n = 71 ∨ n = 73 ∨ n = 75) := by omega
  have h8 : ¬(n = 77) := by omega
  have h9 : ¬(n = 80 ∨ n = 81 ∨ n = 82) := by omega
  have h10 : ¬(n = 85 ∨ n = 86) := by omega
  have h11 : ¬(n = 95) := by omega
  have h12 : ¬(n = 96 ∨ n = 99) := by omega
  simp only [wmoWeatherCodeToText, if_neg h0, if_neg h1, if_neg h2, if_neg h3,
    if_neg h4, if_neg h5, if_neg h6, if_neg h7, if_neg h8, if_neg h9,
    if_neg h10, if_neg h11, if_neg h12]

theorem wmoSpec_unknown_of_out_of_range (n : Int) (h : n < 0 ∨ 99 < n) :
    wmoSpecText n = "Unknown conditions" := by
  have h0 : ¬(n = 0) := by omega
  have h1 : ¬(1 ≤ n ∧ n ≤ 3) := by omega
  have h2 : ¬(n = 45 ∨ n = 48) := by omega
  have h3 : ¬(n = 51 ∨ n = 53 ∨ n = 55) := by omega
  have h4 : ¬(n = 56 ∨ n = 57) := by omega
  have h5 : ¬(n = 61 ∨ n = 63 ∨ n = 65) := by omega
  have h6 : ¬(n = 66 ∨ n = 67) := by omega
  have h7 : ¬(n = 71 ∨ n = 73 ∨ n = 75) := by omega
  have h8 : ¬(n = 77) := by omega
  have h9 : ¬(80 ≤ n ∧ n ≤ 82) := by omega
  have h10 : ¬(n = 85 ∨ n = 86) := by omega
  have h11 : ¬(n = 95) := by omega
  have h12 : ¬(n = 96 ∨ n = 99) := by omega
  simp only [wmoSpecText, if_neg h0, if_neg h1, if_neg h2, if_neg h3,
    if_neg h4, if_neg h5, if_neg h6, if_neg h7, if_neg h8, if_neg h9,
    if_neg h10, if_neg h11, if_neg h12]

theorem wmo_output_mem_table (code : Option Int) :
    wmoWeatherCodeToText code ∈ translationTable := by
  cases code with
  | none => decide
  | some c =>
    by_cases hlo : 0 ≤ c
    · by_cases hhi : c ≤ 99
      · interval_cases c <;> decide
      · rw [wmo_unknown_of_out_of_range c (by omega)]; decide
    · rw [wmo_unknown_of_out_of_range c (by omega)]; decide

/-- C1: the weather-code translator is a pure total function on integer
weather codes and agrees with the documented enumeration table on every
integer: 0 is clear sky, 1 to 3 partly cloudy, 45 and 48 fog, 51, 53 and
55 drizzle, 56 and 57 freezing drizzle, 61, 63 and 65 rain, 66 and 67
freezing rain, 71, 73 and 75 snow, 77 snow grains, 80 to 82 rain
showers, 85 and 86 snow showers, 95 thunderstorm, 96 and 99 thunderstorm
with hail, and every other integer maps to the unknown-conditions
string.  Totality (the translator never fails) is witnessed by the
function being defined on all of its domain. -/
theorem wmo_translator_matches_spec_table (n : Int) :
    wmoWeatherCodeToText (some n) = wmoSpecText n := by
  by_cases hlo : 0 ≤ n
  · by_cases hhi : n ≤ 99
    · interval_cases n <;> decide
    · rw [wmo_unknown_of_out_of_range n (by omega),
          wmoSpec_unknown_of_out_of_range n (by omega)]
  · rw [wmo_unknown_of_out_of_range n (by omega),
        wmoSpec_unknown_of_out_of_range n (by omega)]

/-- Hexadecimal digit character (uppercase), for percent-encoding. -/
def hexDigitChar (n : Nat) : Char :=
  if n < 10 then Char.ofNat (48 + n) else Char.ofNat (55 + n)

/-- Percent-encoding of one byte value, as produced by
encodeURIComponent. -/
def percentEncodeByte (b : Nat) : String :=
  String.mk ['%', hexDigitChar (b / 16), hexDigitChar (b % 16)]

/-- UTF-8 byte values of one character (standard encoding of the code
point). -/
def utf8Bytes (c : Char) : List Nat :=
  let n := c.toNat
  if n < 0x80 then [n]
  else if n < 0x800 then [0xC0 + n / 0x40, 0x80 + n % 0x40]
  else if n < 0x10000 then
    [0xE0 + n / 0x1000, 0x80 + (n / 0x40) % 0x40, 0x80 + n % 0x40]
  else
    [0xF0 + n / 0x40000, 0x80 + (n / 0x1000) % 0x40, 0x80 + (n / 0x40) % 0x40,
     0x80 + n % 0x40]

/-- Characters that encodeURIComponent leaves unescaped: ASCII letters,
digits, and the marks - _ . ! ~ * apostrophe ( ). -/
def uriUnreserved (c : Char) : Bool :=
  decide (('A' ≤ c ∧ c ≤ 'Z') ∨ ('a' ≤ c ∧ c ≤ 'z') ∨ ('0' ≤ c ∧ c ≤ '9')) ||
  c == '-' || c == '_' || c == '.' || c == '!' || c == '~' || c == '*' ||
  c == '\x27' || c == '(' || c == ')'

/-- Model of the encodeURIComponent builtin used to build the geocoding
URL: unreserved characters pass through, every other character is
UTF-8 percent-encoded. -/
def encodeURIComponent (s : String) : String :=
  s.data.foldl
    (fun acc c =>
      if uriUnreserved c then acc.push c
      else acc ++ String.join ((utf8Bytes c).map percentEncodeByte))
    ""

/-- Geocoding request URL built from the trimmed city query. -/
def geoUrlFor (trimmed : String) : String :=
  "https://geocoding-api.open-meteo.com/v1/search?name=" ++
    encodeURIComponent trimmed ++ "&count=1&language=en&format=json"

/-- Forecast request URL built from the chosen coordinates. -/
def forecastUrlFor (lat lon : Int) : String :=
  "https://api.open-meteo.com/v1/forecast?latitude=" ++ toString lat ++
    "&longitude=" ++ toString lon ++
    "&current=temperature_2m,weather_code,wind_speed_10m&daily=temperature_2m_max,temperature_2m_min,precipitation_probability_max&timezone=auto"

/-- Message of the error thrown by fetchJsonOrThrow on a non-success
HTTP status. -/
def requestFailedMsg (status : Nat) (url body : String) : String :=
  "Request failed (" ++ toString status ++ ") for " ++ url ++ ": " ++ body

/-- Message of the not-found result when the geocoding response has no
usable match. -/
def noLocationMsg (trimmed : String) : String :=
  "Couldn\x27t find a location for \"" ++ trimmed ++
    "\". Try including a country/state (e.g. \"Paris, France\")."

/-- Model of String.prototype.trim: drops whitespace characters from
both ends of the string (space, tab, carriage return, newline).  Written
by structural recursion on the character list so that it evaluates on
concrete inputs. -/
def jsTrim (s : String) : String :=
  String.mk (((s.data.dropWhile Char.isWhitespace).reverse.dropWhile Char.isWhitespace).reverse)

/-- Environment of upstream response oracles: what each outbound call
would observe.  The geocoder is keyed by the (trimmed) query text, the
forecast endpoint by the requested coordinates. -/
structure Env where
  geo : String → FetchOutcome OpenMeteoGeocodingResponse
  forecast : Int → Int → FetchOutcome OpenMeteoForecastResponse

/-- Record of one outbound network call actually issued. -/
inductive NetCall where
  | geocoding (url : String)
  | forecast (url : String)
  deriving DecidableEq, Repr

/-- Day index used by the composer (today only). -/
def dailyIndex : Nat := 0

/-- Output location record of a success result. -/
structure LocationOut where
  name : String
  latitude : Int
  longitude : Int
  timezone : Option String
  deriving DecidableEq, Repr

/-- Output current-conditions record of a success result. -/
structure CurrentOut where
  time : Option String
  temperature : Option Int
  temperatureUnit : String
  windSpeed : Option Int
  windSpeedUnit : String
  weatherCode : Option Int
  conditions : String
  deriving DecidableEq, Repr

/-- Output today-forecast record of a success result. -/
structure TodayOut where
  date : Option String
  high : Option Int
  low : Option Int
  precipitationChance : Option Int
  precipitationChanceUnit : String
  deriving DecidableEq, Repr

/-- Success payload of the composer: the record tagged kind "weather" in
the source (the tag itself is carried by the ToolPayload constructor
below). -/
structure WeatherData where
  query : String
  source : String
  location : LocationOut
  current : CurrentOut
  today : TodayOut
  deriving DecidableEq, Repr

/-- JavaScript truthiness of an optional string, as used by
filter(Boolean): undefined and the empty string are falsy. -/
def jsTruthy (s : Option String) : Bool :=
  match s with
  | none => false
  | some t => t != ""

/-- Array.prototype.join with a separator, as used on the label parts. -/
def joinWith (sep : String) : List String → String
  | [] => ""
  | [s] => s
  | s :: rest => s ++ sep ++ joinWith sep rest

/-- Location label: [best.name, best.admin1, best.country] filtered by
truthiness and joined with a comma and space. -/
def locationLabel (best : GeoResult) : String :=
  joinWith ", " (([some best.name, best.admin1, best.country].filter jsTruthy).filterMap id)

/-- Extraction of the current-conditions output fields from a forecast
response, exactly as the composer reads them (optional chaining becomes
Option.bind, nullish-coalescing of the units becomes getD).  The
mojibake default "Â°C" is the byte-faithful translation of the
string literal in the server source. -/
def extractCurrent (f : OpenMeteoForecastResponse) : CurrentOut :=
  { time := f.current.map (fun c => c.time)
    temperature := f.current.bind (fun c => c.temperature_2m)
    temperatureUnit := (f.current_units.bind (fun u => u.temperature_2m)).getD "Â°C"
    windSpeed := f.current.bind (fun c => c.wind_speed_10m)
    windSpeedUnit := (f.current_units.bind (fun u => u.wind_speed_10m)).getD "km/h"
    weatherCode := f.current.bind (fun c => c.weather_code)
    conditions := wmoWeatherCodeToText (f.current.bind (fun c => c.weather_code)) }

/-- Extraction of the today-forecast output fields from a forecast
response at dailyIndex. -/
def extractToday (f : OpenMeteoForecastResponse) : TodayOut :=
  { date := f.daily.bind (fun d => d.time.get? dailyIndex)
    high := (f.daily.bind (fun d => d.temperature_2m_max)).bind (fun l => l.get? dailyIndex)
    low := (f.daily.bind (fun d => d.temperature_2m_min)).bind (fun l => l.get? dailyIndex)
    precipitationChance := (f.daily.bind (fun d => d.precipitation_probability_max)).bind (fun l => l.get? dailyIndex)
    precipitationChanceUnit := "%" }

/-- Assembly of the success record from the trimmed query, the best
geocoding match and the forecast response (the object literal returned
by getWeatherForCity on the happy path). -/
def composeWeatherData (trimmed : String) (best : GeoResult)
    (f : OpenMeteoForecastResponse) : WeatherData :=
  { query := trimmed
    source := "Open-Meteo (no API key)"
    location :=
      { name := locationLabel best
        latitude := best.latitude
        longitude := best.longitude
        timezone := f.timezone <|> best.timezone }
    current := extractCurrent f
    today := extractToday f }

/-- Result of one run of the composer body: a rejected promise carrying
an error message (empty input, or a failure thrown by fetchJsonOrThrow),
the explicit not-ok record for a missing geocoding match, or the success
record. -/
inductive ComposerOutcome where
  | thrown (message : String)
  | notOk (error : String)
  | ok (data : WeatherData)
  deriving DecidableEq, Repr

/-- The getWeatherForCity composer: trims the input, rejects blank
input, resolves the query through the geocoder, short-circuits on a
missing match, fetches the forecast for the coordinates of the best
match, and assembles the success record.  The second component records
the outbound calls actually issued, in order. -/
def getWeatherForCity (env : Env) (city : String) : ComposerOutcome × List NetCall :=
  if jsTrim city = "" then
    (.thrown "City is required.", [])
  else
    match env.geo (jsTrim city) with
    | .httpError status body =>
        (.thrown (requestFailedMsg status (geoUrlFor (jsTrim city)) body),
         [.geocoding (geoUrlFor (jsTrim city))])
    | .networkError message =>
        (.thrown message, [.geocoding (geoUrlFor (jsTrim city))])
    | .success g =>
        match g.results.bind (fun rs => rs.get? 0) with
        | none =>
            (.notOk (noLocationMsg (jsTrim city)), [.geocoding (geoUrlFor (jsTrim city))])
        | some best =>
            match env.forecast best.latitude best.longitude with
            | .httpError status body =>
                (.thrown (requestFailedMsg status (forecastUrlFor best.latitude best.longitude) body),
                 [.geocoding (geoUrlFor (jsTrim city)),
                  .forecast (forecastUrlFor best.latitude best.longitude)])
            | .networkError message =>
                (.thrown message,
                 [.geocoding (geoUrlFor (jsTrim city)),
                  .forecast (forecastUrlFor best.latitude best.longitude)])
            | .success f =>
                (.ok (composeWeatherData (jsTrim city) best f),
                 [.geocoding (geoUrlFor (jsTrim city)),
                  .forecast (forecastUrlFor best.latitude best.longitude)])

/-- Structured content of a tool response: the tagged union of the
kind "weather" success record and the kind "weather_error" record with
its query and error fields. -/
inductive ToolPayload where
  | weather (data : WeatherData)
  | weatherError (query : String) (error : String)
  deriving DecidableEq, Repr

/-- Protocol-level result of a get_weather tool invocation: the joined
text summary and the structured content.  The handler is a total
function of the environment and the input, which models the fact that
the catch wrapper never lets an exception escape to the caller. -/
structure ToolResult where
  contentText : String
  structuredContent : ToolPayload
  deriving DecidableEq, Repr

/-- Text summary built from a success record (the parts array joined by
newlines).  Math.round is the identity on the integers of this model
and is therefore not written. -/
def summaryText (d : WeatherData) : String :=
  joinWith "\n"
    (["Weather for " ++ d.location.name] ++
      (match d.current.temperature with
        | some t =>
            ["Now: " ++ toString t ++ d.current.temperatureUnit ++ " (" ++
              d.current.conditions ++ ")"]
        | none => []) ++
      (match d.today.high, d.today.low with
        | some hi, some lo =>
            ["Today: H " ++ toString hi ++ d.current.temperatureUnit ++
              " / L " ++ toString lo ++ d.current.temperatureUnit]
        | _, _ => []) ++
      (match d.today.precipitationChance with
        | some p => ["Precip chance: " ++ toString p ++ "%"]
        | none => []))

/-- The get_weather tool handler: runs the composer with a catch that
turns any rejection into a not-ok result (every rejection in the
composer is an Error object carrying a message), then renders either the
error payload (kind "weather_error", with the original untrimmed city as
the query field) or the success payload (kind "weather"). -/
def get_weather (env : Env) (city : String) : ToolResult :=
  match (getWeatherForCity env city).1 with
  | .thrown message =>
      { contentText := message
        structuredContent := .weatherError city message }
  | .notOk error =>
      { contentText := error
        structuredContent := .weatherError city error }
  | .ok d =>
      { contentText := summaryText d
        structuredContent := .weather d }

/-- A string with a nonempty left part stays nonempty under append. -/
theorem string_ne_empty_of_append (s t : String) (h : s ≠ "") : s ++ t ≠ "" := by
  intro hc
  apply h
  have hd : s.data ++ t.data = [] := by rw [← String.data_append, hc]
  have hs : s.data = [] := (List.append_eq_nil.mp hd).1
  cases s with
  | mk data => cases hs; rfl

/-- Joining a list whose first element is nonempty gives a nonempty
string. -/
theorem joinWith_ne_empty (sep s : String) (rest : List String) (h : s ≠ "") :
    joinWith sep (s :: rest) ≠ "" := by
  cases rest with
  | nil => simpa [joinWith] using h
  | cons a l =>
    show s ++ sep ++ joinWith sep (a :: l) ≠ ""
    exact string_ne_empty_of_append _ _ (string_ne_empty_of_append _ _ h)

/-- The location label is nonempty whenever the name field of the match
is nonempty. -/
theorem locationLabel_ne_empty (best : GeoResult) (h : best.name ≠ "") :
    locationLabel best ≠ "" := by
  have hj : jsTruthy (some best.name) = true := by
    simp [jsTruthy]
    exact h
  unfold locationLabel
  rw [List.filter_cons_of_pos hj]
  rw [List.filterMap_cons]
  exact joinWith_ne_empty _ _ _ h

/-- The success path of the composer: nonblank input, a geocoding
response with a first match, and a forecast response give the assembled
record and exactly the two outbound calls. -/
theorem getWeatherForCity_success (env : Env) (city : String)
    (g : OpenMeteoGeocodingResponse) (best : GeoResult)
    (f : OpenMeteoForecastResponse)
    (h0 : ¬ jsTrim city = "")
    (h1 : env.geo (jsTrim city) = .success g)
    (h2 : g.results.bind (fun rs => rs.get? 0) = some best)
    (h3 : env.forecast best.latitude best.longitude = .success f) :
    getWeatherForCity env city =
      (.ok (composeWeatherData (jsTrim city) best f),
       [.geocoding (geoUrlFor (jsTrim city)),
        .forecast (forecastUrlFor best.latitude best.longitude)]) := by
  unfold getWeatherForCity
  simp only [if_neg h0, h1, h2, h3]

/-- Reassociation of the fetchJsonOrThrow failure message around the
status code. -/
theorem requestFailedMsg_decomp (status : Nat) (url body : String) :
    requestFailedMsg status url body =
      "Request failed (" ++ toString status ++
        (") for " ++ url ++ ": " ++ body) := by
  unfold requestFailedMsg
  simp [String.append_assoc]

/-- Reassociation of the not-found message around the suggestion to add
more location detail. -/
theorem noLocationMsg_decomp (t : String) :
    noLocationMsg t =
      ("Couldn\x27t find a location for \"" ++ t ++ "\". ") ++
        "Try including a country/state" ++ " (e.g. \"Paris, France\")." := by
  have hB : ("\". Try including a country/state (e.g. \"Paris, France\")." : String) =
      "\". " ++ ("Try including a country/state" ++ " (e.g. \"Paris, France\").") := by
    decide
  unfold noLocationMsg
  rw [hB]
  simp [String.append_assoc]

/-- Geocoding match used by the concrete scenarios. -/
def parisMatch : GeoResult :=
  { name := "Paris", latitude := 48, longitude := 2, country := some "France" }

/-- Forecast response with data but no current_units block. -/
def fcNoUnits : OpenMeteoForecastResponse :=
  { current := some { time := "2026-10-11T12:00", temperature_2m := some 15,
                      weather_code := some 2, wind_speed_10m := some 10 } }

/-- Environment: geocoder finds Paris, forecast succeeds but omits unit
metadata. -/
def envNoUnits : Env :=
  { geo := fun _ => .success { results := some [parisMatch] }
    forecast := fun _ _ => .success fcNoUnits }

/-- Environment in which both upstream endpoints are unreachable. -/
def envDefault : Env :=
  { geo := fun _ => .networkError "fetch failed"
    forecast := fun _ _ => .networkError "fetch failed" }

/-- Environment in which the geocoding endpoint answers 503. -/
def envGeoDown : Env :=
  { geo := fun _ => .httpError 503 ""
    forecast := fun _ _ => .networkError "fetch failed" }

/-- Environment in which the geocoder succeeds with an empty results
array. -/
def envNoResults : Env :=
  { geo := fun _ => .success { results := some [] }
    forecast := fun _ _ => .networkError "fetch failed" }

/-- Environment in which the geocoder finds Paris but the forecast
endpoint answers 404. -/
def envFcDown : Env :=
  { geo := fun _ => .success { results := some [parisMatch] }
    forecast := fun _ _ => .httpError 404 "" }

/-- C2: evaluation of the server composer at a forecast response that
omits unit metadata.  The wind speed unit defaults to "km/h" as the
claim states, but the temperature unit defaults to the mojibake string
"Â°C" (the bytes of the source literal), which differs from the Celsius
symbol "°C" the claim and the parallel page composer use: the code
contradicts the evident intent. -/
theorem temperature_unit_default_is_mojibake :
    (getWeatherForCity envNoUnits "Paris").1 =
      .ok (composeWeatherData "Paris" parisMatch fcNoUnits) ∧
    (composeWeatherData "Paris" parisMatch fcNoUnits).current.temperatureUnit = "Â°C" ∧
    (composeWeatherData "Paris" parisMatch fcNoUnits).current.temperatureUnit ≠ "°C" ∧
    (composeWeatherData "Paris" parisMatch fcNoUnits).current.windSpeedUnit = "km/h" :=
  ⟨rfl, rfl, by decide, rfl⟩

/-- C3: for blank input (trimmed to the empty string) the tool produces
the weather_error payload whose message states that a city is required,
with the original input as the query field, and the composer issues no
outbound network call. -/
theorem empty_city_short_circuit (env : Env) (city : String)
    (h : jsTrim city = "") :
    get_weather env city =
      { contentText := "City is required."
        structuredContent := .weatherError city "City is required." } ∧
    (getWeatherForCity env city).2 = [] := by
  constructor
  · unfold get_weather getWeatherForCity
    simp only [if_pos h]
  · unfold getWeatherForCity
    simp only [if_pos h]

theorem empty_city_short_circuit_witness :
    get_weather envDefault " \t " =
      { contentText := "City is required."
        structuredContent := .weatherError " \t " "City is required." } ∧
    (getWeatherForCity envDefault " \t ").2 = [] :=
  empty_city_short_circuit envDefault " \t " (by decide)

/-- C4: when the geocoding response has no match (results absent or
empty) the tool produces the weather_error payload whose message
mentions the trimmed query text, and only the geocoding call was issued:
the forecast call never happens. -/
theorem no_match_short_circuit (env : Env) (city : String)
    (g : OpenMeteoGeocodingResponse)
    (h0 : ¬ jsTrim city = "")
    (h1 : env.geo (jsTrim city) = .success g)
    (h2 : g.results.bind (fun rs => rs.get? 0) = none) :
    (get_weather env city).structuredContent =
      .weatherError city (noLocationMsg (jsTrim city)) ∧
    (∃ pre post, noLocationMsg (jsTrim city) = pre ++ jsTrim city ++ post) ∧
    (getWeatherForCity env city).2 = [.geocoding (geoUrlFor (jsTrim city))] := by
  refine ⟨?_,
    ⟨"Couldn\x27t find a location for \"",
     "\". Try including a country/state (e.g. \"Paris, France\").", rfl⟩, ?_⟩
  · unfold get_weather getWeatherForCity
    simp only [if_neg h0, h1, h2]
  · unfold getWeatherForCity
    simp only [if_neg h0, h1, h2]

theorem no_match_short_circuit_witness :
    (get_weather envNoResults "Quux").structuredContent =
      .weatherError "Quux" (noLocationMsg (jsTrim "Quux")) ∧
    (∃ pre post, noLocationMsg (jsTrim "Quux") = pre ++ jsTrim "Quux" ++ post) ∧
    (getWeatherForCity envNoResults "Quux").2 =
      [.geocoding (geoUrlFor (jsTrim "Quux"))] :=
  no_match_short_circuit envNoResults "Quux" { results := some [] } (by decide) rfl rfl

/-- Failure of either upstream call as the claim enumerates it: a
non-success HTTP status or network exception from the geocoder, a
geocoding response with no usable match, or (after a match) a
non-success HTTP status or network exception from the forecast
endpoint. -/
def upstreamFailure (env : Env) (trimmed : String) : Prop :=
  (∃ status body, env.geo trimmed = .httpError status body) ∨
  (∃ message, env.geo trimmed = .networkError message) ∨
  (∃ g, env.geo trimmed = .success g ∧
    g.results.bind (fun rs => rs.get? 0) = none) ∨
  (∃ g best, env.geo trimmed = .success g ∧
    g.results.bind (fun rs => rs.get? 0) = some best ∧
    ((∃ status body, env.forecast best.latitude best.longitude = .httpError status body) ∨
     (∃ message, env.forecast best.latitude best.longitude = .networkError message)))

/-- C5: under any upstream failure the tool invocation still completes
with a ToolResult (the handler is total: the catch wrapper converts
every rejection), and the failure is carried inside the payload as a
structured weather_error record whose query field is the original input
and whose error field is the failure message. -/
theorem tool_error_is_structured (env : Env) (city : String)
    (h : upstreamFailure env (jsTrim city)) :
    ∃ msg, get_weather env city =
      { contentText := msg
        structuredContent := .weatherError city msg } := by
  by_cases h0 : jsTrim city = ""
  · refine ⟨"City is required.", ?_⟩
    unfold get_weather getWeatherForCity
    simp only [if_pos h0]
  · rcases h with ⟨status, body, hg⟩ | ⟨message, hg⟩ | ⟨g, hg, hr⟩ |
      ⟨g, best, hg, hr, ⟨status, body, hf⟩ | ⟨message, hf⟩⟩
    · refine ⟨requestFailedMsg status (geoUrlFor (jsTrim city)) body, ?_⟩
      unfold get_weather getWeatherForCity
      simp only [if_neg h0, hg]
    · refine ⟨message, ?_⟩
      unfold get_weather getWeatherForCity
      simp only [if_neg h0, hg]
    · refine ⟨noLocationMsg (jsTrim city), ?_⟩
      unfold get_weather getWeatherForCity
      simp only [if_neg h0, hg, hr]
    · refine ⟨requestFailedMsg status (forecastUrlFor best.latitude best.longitude) body, ?_⟩
      unfold get_weather getWeatherForCity
      simp only [if_neg h0, hg, hr, hf]
    · refine ⟨message, ?_⟩
      unfold get_weather getWeatherForCity
      simp only [if_neg h0, hg, hr, hf]

theorem tool_error_is_structured_witness :
    ∃ msg, get_weather envGeoDown "Lyon" =
      { contentText := msg
        structuredContent := .weatherError "Lyon" msg } :=
  tool_error_is_structured envGeoDown "Lyon" (Or.inl ⟨503, "", rfl⟩)

/-- Geocoding match whose name field is empty (and no admin region or
country), so every label part is falsy. -/
def unnamedMatch : GeoResult := { name := "", latitude := 7, longitude := 9 }

/-- Environment whose geocoder returns the unnamed match and whose
forecast endpoint returns an empty-but-successful response. -/
def envUnnamedMatch : Env :=
  { geo := fun _ => .success { results := some [unnamedMatch] }
    forecast := fun _ _ => .success {} }

/-- C6 counterexample: a geocoding match whose name field is the empty
string produces a success result of kind weather whose location.name is
empty, so the claim as stated (location.name nonempty for every
geocoding match) fails at this input. -/
theorem success_with_empty_location_name :
    (getWeatherForCity envUnnamedMatch "Atlantis").1 =
      .ok (composeWeatherData "Atlantis" unnamedMatch {}) ∧
    (composeWeatherData "Atlantis" unnamedMatch {}).location.name = "" :=
  ⟨rfl, rfl⟩

/-- C6 (amended): for a nonblank city string, a geocoding match whose
name field is nonempty, and a successful forecast call, the tool returns
a structured result of kind weather whose location.name is nonempty and
whose current.conditions is one of the strings of the fixed translation
table. -/
theorem success_result_shape (env : Env) (city : String)
    (g : OpenMeteoGeocodingResponse) (best : GeoResult)
    (f : OpenMeteoForecastResponse)
    (h0 : ¬ jsTrim city = "")
    (h1 : env.geo (jsTrim city) = .success g)
    (h2 : g.results.bind (fun rs => rs.get? 0) = some best)
    (h3 : env.forecast best.latitude best.longitude = .success f)
    (h4 : best.name ≠ "") :
    ∃ d, (get_weather env city).structuredContent = .weather d ∧
      d.location.name ≠ "" ∧
      d.current.conditions ∈ translationTable := by
  refine ⟨composeWeatherData (jsTrim city) best f, ?_, ?_, ?_⟩
  · unfold get_weather
    rw [getWeatherForCity_success env city g best f h0 h1 h2 h3]
  · exact locationLabel_ne_empty best h4
  · exact wmo_output_mem_table _

theorem success_result_shape_witness :
    ∃ d, (get_weather envNoUnits "Paris").structuredContent = .weather d ∧
      d.location.name ≠ "" ∧
      d.current.conditions ∈ translationTable :=
  success_result_shape envNoUnits "Paris" { results := some [parisMatch] }
    parisMatch fcNoUnits (by decide) rfl rfl rfl (by decide)

/-- C7: a non-success HTTP status from either upstream call yields a
weather_error payload whose message contains the failing numeric status
code, while a missing geocoding match yields a weather_error payload
whose message contains the suggestion to add more location detail. -/
theorem failing_status_in_error_message (env : Env) (city : String)
    (h0 : ¬ jsTrim city = "") :
    (∀ status body, env.geo (jsTrim city) = .httpError status body →
      ∃ pre post, (get_weather env city).structuredContent =
        .weatherError city (pre ++ toString status ++ post)) ∧
    (∀ g best status body, env.geo (jsTrim city) = .success g →
      g.results.bind (fun rs => rs.get? 0) = some best →
      env.forecast best.latitude best.longitude = .httpError status body →
      ∃ pre post, (get_weather env city).structuredContent =
        .weatherError city (pre ++ toString status ++ post)) ∧
    (∀ g, env.geo (jsTrim city) = .success g →
      g.results.bind (fun rs => rs.get? 0) = none →
      ∃ pre post, (get_weather env city).structuredContent =
        .weatherError city (pre ++ "Try including a country/state" ++ post)) := by
  refine ⟨?_, ?_, ?_⟩
  · intro status body hg
    refine ⟨"Request failed (",
      ") for " ++ geoUrlFor (jsTrim city) ++ ": " ++ body, ?_⟩
    unfold get_weather getWeatherForCity
    simp only [if_neg h0, hg]
    rw [requestFailedMsg_decomp]
  · intro g best status body hg hr hf
    refine ⟨"Request failed (",
      ") for " ++ forecastUrlFor best.latitude best.longitude ++ ": " ++ body, ?_⟩
    unfold get_weather getWeatherForCity
    simp only [if_neg h0, hg, hr, hf]
    rw [requestFailedMsg_decomp]
  · intro g hg hr
    refine ⟨"Couldn\x27t find a location for \"" ++ jsTrim city ++ "\". ",
      " (e.g. \"Paris, France\").", ?_⟩
    unfold get_weather getWeatherForCity
    simp only [if_neg h0, hg, hr]
    rw [noLocationMsg_decomp]

theorem failing_status_in_error_message_witness :
    (∃ pre post, (get_weather envGeoDown "Lyon").structuredContent =
      .weatherError "Lyon" (pre ++ toString 503 ++ post)) ∧
    (∃ pre post, (get_weather envFcDown "Lyon").structuredContent =
      .weatherError "Lyon" (pre ++ toString 404 ++ post)) ∧
    (∃ pre post, (get_weather envNoResults "Xyzzy").structuredContent =
      .weatherError "Xyzzy" (pre ++ "Try including a country/state" ++ post)) :=
  ⟨(failing_status_in_error_message envGeoDown "Lyon" (by decide)).1 503 "" rfl,
   (failing_status_in_error_message envFcDown "Lyon" (by decide)).2.1
     { results := some [parisMatch] } parisMatch 404 "" rfl rfl rfl,
   (failing_status_in_error_message envNoResults "Xyzzy" (by decide)).2.2
     { results := some [] } rfl rfl⟩

/-- C8: round-trip.  Every success result embeds the coordinates of the
geocoding match, so querying the forecast adapter again at the result
location yields the very same upstream response, and re-applying the
adapter field extraction to it reproduces exactly the current and today
records the composer embedded: no lossy transform sits between the
forecast adapter output and the WeatherResult. -/
theorem roundtrip_no_lossy_transform (env : Env) (city : String)
    (g : OpenMeteoGeocodingResponse) (best : GeoResult)
    (f : OpenMeteoForecastResponse)
    (h0 : ¬ jsTrim city = "")
    (h1 : env.geo (jsTrim city) = .success g)
    (h2 : g.results.bind (fun rs => rs.get? 0) = some best)
    (h3 : env.forecast best.latitude best.longitude = .success f) :
    ∃ d, (getWeatherForCity env city).1 = .ok d ∧
      env.forecast d.location.latitude d.location.longitude = .success f ∧
      d.current = extractCurrent f ∧
      d.today = extractToday f := by
  refine ⟨composeWeatherData (jsTrim city) best f, ?_, h3, rfl, rfl⟩
  rw [getWeatherForCity_success env city g best f h0 h1 h2 h3]

theorem roundtrip_no_lossy_transform_witness :
    ∃ d, (getWeatherForCity envNoUnits "Paris").1 = .ok d ∧
      envNoUnits.forecast d.location.latitude d.location.longitude =
        .success fcNoUnits ∧
      d.current = extractCurrent fcNoUnits ∧
      d.today = extractToday fcNoUnits :=
  roundtrip_no_lossy_transform envNoUnits "Paris"
    { results := some [parisMatch] } parisMatch fcNoUnits (by decide) rfl rfl rfl

/-- C9: the translator maps an absent weather code to the
unknown-conditions string, so the conditions field of a success record
is this defined string even when the upstream forecast response omits
the weather_code field (current absent, or its weather_code absent). -/
theorem undefined_weather_code_unknown :
    wmoWeatherCodeToText none = "Unknown conditions" ∧
    ∀ (trimmed : String) (best : GeoResult) (f : OpenMeteoForecastResponse),
      f.current.bind (fun c => c.weather_code) = none →
      (composeWeatherData trimmed best f).current.conditions =
        "Unknown conditions" := by
  refine ⟨rfl, fun trimmed best f h => ?_⟩
  show wmoWeatherCodeToText (f.current.bind (fun c => c.weather_code)) = _
  rw [h]
  rfl

theorem undefined_weather_code_unknown_witness :
    ({} : OpenMeteoForecastResponse).current.bind (fun c => c.weather_code) = none ∧
    (composeWeatherData "Paris" parisMatch {}).current.conditions =
      "Unknown conditions" :=
  ⟨rfl, undefined_weather_code_unknown.2 "Paris" parisMatch {} rfl⟩

/-- Environment whose forecast response carries no optional field at
all. -/
def envBareForecast : Env :=
  { geo := fun _ => .success { results := some [parisMatch] }
    forecast := fun _ _ => .success {} }

/-- C10: a success result may be partially populated.  Whatever forecast
response the upstream returns (including one omitting every optional
field), the composer still succeeds, the optional output fields mirror
the corresponding upstream fields (absent upstream gives absent output),
and the unit strings, conditions, percent sign, query, source and the
match coordinates are always present with these values. -/
theorem success_field_passthrough (env : Env) (city : String)
    (g : OpenMeteoGeocodingResponse) (best : GeoResult)
    (f : OpenMeteoForecastResponse)
    (h0 : ¬ jsTrim city = "")
    (h1 : env.geo (jsTrim city) = .success g)
    (h2 : g.results.bind (fun rs => rs.get? 0) = some best)
    (h3 : env.forecast best.latitude best.longitude = .success f) :
    ∃ d, (getWeatherForCity env city).1 = .ok d ∧
      d.current.time = f.current.map (fun c => c.time) ∧
      d.current.temperature = f.current.bind (fun c => c.temperature_2m) ∧
      d.current.windSpeed = f.current.bind (fun c => c.wind_speed_10m) ∧
      d.current.weatherCode = f.current.bind (fun c => c.weather_code) ∧
      d.today.date = f.daily.bind (fun dd => dd.time.get? dailyIndex) ∧
      d.today.high = (f.daily.bind (fun dd => dd.temperature_2m_max)).bind
        (fun l => l.get? dailyIndex) ∧
      d.today.low = (f.daily.bind (fun dd => dd.temperature_2m_min)).bind
        (fun l => l.get? dailyIndex) ∧
      d.today.precipitationChance =
        (f.daily.bind (fun dd => dd.precipitation_probability_max)).bind
          (fun l => l.get? dailyIndex) ∧
      d.current.temperatureUnit =
        (f.current_units.bind (fun u => u.temperature_2m)).getD "Â°C" ∧
      d.current.windSpeedUnit =
        (f.current_units.bind (fun u => u.wind_speed_10m)).getD "km/h" ∧
      d.current.conditions =
        wmoWeatherCodeToText (f.current.bind (fun c => c.weather_code)) ∧
      d.today.precipitationChanceUnit = "%" ∧
      d.query = jsTrim city ∧
      d.source = "Open-Meteo (no API key)" ∧
      d.location.latitude = best.latitude ∧
      d.location.longitude = best.longitude := by
  refine ⟨composeWeatherData (jsTrim city) best f, ?_, rfl, rfl, rfl, rfl, rfl,
    rfl, rfl, rfl, rfl, rfl, rfl, rfl, rfl, rfl, rfl, rfl⟩
  rw [getWeatherForCity_success env city g best f h0 h1 h2 h3]

theorem success_field_passthrough_witness :
    ∃ d, (getWeatherForCity envBareForecast "Paris").1 = .ok d ∧
      d.current.time = none ∧
      d.current.temperature = none ∧
      d.current.windSpeed = none ∧
      d.current.weatherCode = none ∧
      d.today.date = none ∧
      d.today.high = none ∧
      d.today.low = none ∧
      d.today.precipitationChance = none ∧
      d.current.temperatureUnit = "Â°C" ∧
      d.current.windSpeedUnit = "km/h" ∧
      d.current.conditions = "Unknown conditions" ∧
      d.today.precipitationChanceUnit = "%" ∧
      d.query = "Paris" ∧
      d.source = "Open-Meteo (no API key)" ∧
      d.location.latitude = 48 ∧
      d.location.longitude = 2 :=
  success_field_passthrough envBareForecast "Paris"
    { results := some [parisMatch] } parisMatch {} (by decide) rfl rfl rfl
